import Mathlib

/-!
Shallow embedding of the sampling/rate engine of the Watch_Dogs repository:
`Watch_Dogs/Core/corelib.py` (system-scope CPU / memory / network sampling)
and `Watch_Dogs/Core/process_monitor.py` (per-process CPU / disk-IO sampling
and the nethogs-backed per-process network feed).

Modelling conventions:
- Python integers are `Int`; Python floats (rates, `time()` readings) are `ℚ`,
  so the exact arithmetic of the source formulas is preserved.
- Reads of `/proc` pseudo-files are environment inputs: each sampling function
  takes the values its raw reads would return, in the order the source
  performs the reads.
- A Python exception escaping a call is `Except.error`; `ZeroDivisionError`,
  `KeyError`, `TypeError`, `SystemExit` and the typed process exceptions are
  the constructors of `PyErr`.
- Module-level mutable globals are explicit state records threaded through
  each call; each sampling call returns its Python return value (or escaping
  exception), the state after the call, and whether the blocking warm-up
  branch (the `sleep(interval)` line) ran.
-/

deriving instance DecidableEq for Except

/-- Python exceptions that can escape the modelled calls. `noSuchProcess` is
the typed exception `wrap_process_exceptions` raises when a `/proc/[pid]`
read fails because the process exited. -/
inductive PyErr where
  | zeroDivision
  | noSuchProcess
  | keyError
  | typeError
  | systemExit (code : Int)
deriving DecidableEq, Repr

/-- Module state of corelib.py: its five module-level globals (lines 19-23),
all of which start at 0. -/
structure CoreState where
  prev_cpu_work_time : Int
  prev_cpu_total_time : Int
  prev_net_receive_byte : Int
  prev_net_send_byte : Int
  prev_net_time : ℚ
deriving DecidableEq, Repr

/-- The state corelib.py has right after module load. -/
def initCoreState : CoreState := ⟨0, 0, 0, 0, 0⟩

/-- corelib.get_total_cpu_time: parses the ten counters of the first line of
`/proc/stat` and returns `(total time, work time)` where
total = user+nice+system+idle+iowait+irq+softirq+steal and
work = user+nice+system (guest and guestnice are read but not summed). -/
def get_total_cpu_time (user nice system idle iowait irq softirq steal guest guestnice : Int) :
    Int × Int :=
  (user + nice + system + idle + iowait + irq + softirq + steal + 0 * (guest + guestnice),
   user + nice + system)

/-- Outcome of one corelib CPU sampling call: the return value or escaping
exception, the module state after the call, and whether `sleep` ran. -/
structure CpuCallResult where
  ret : Except PyErr ℚ
  state : CoreState
  slept : Bool
deriving DecidableEq, Repr

/-- Lines 126-129 of corelib.calc_cpu_percent: given the fresh
`get_total_cpu_time()` reading `cur = (total, work)`, either raise
`ZeroDivisionError` (leaving the globals as they are) or return
`(work - prev_work) * 100.0 / (total - prev_total)` and store `cur` as the
new previous sample. -/
def calcCpuAfter (s : CoreState) (cur : Int × Int) (slept : Bool) : CpuCallResult :=
  if cur.1 - s.prev_cpu_total_time = 0 then
    ⟨.error .zeroDivision, s, slept⟩
  else
    ⟨.ok ((((cur.2 - s.prev_cpu_work_time) * 100 : Int) : ℚ) /
          (((cur.1 - s.prev_cpu_total_time) : Int) : ℚ)),
     { s with prev_cpu_total_time := cur.1, prev_cpu_work_time := cur.2 }, slept⟩

/-- corelib.calc_cpu_percent (lines 119-129). `r1` is the first
`get_total_cpu_time()` reading `(total, work)` the call performs and `r2`
the second; the second read only happens when the warm-up branch runs
(`prev_cpu_work_time == 0`), in which case `r1` becomes the baseline, the
call sleeps for the interval, and `r2` is the comparison sample. -/
def calc_cpu_percent (s : CoreState) (r1 r2 : Int × Int) : CpuCallResult :=
  if s.prev_cpu_work_time = 0 then
    calcCpuAfter { s with prev_cpu_total_time := r1.1, prev_cpu_work_time := r1.2 } r2 true
  else
    calcCpuAfter s r1 false

/-- corelib.get_mem_info: the first three lines of `/proc/meminfo`, i.e.
`(MemTotal, MemFree, MemAvailable)` in kB, returned in that order. -/
def get_mem_info (memTotal memFree memAvailable : Int) : Int × Int × Int :=
  (memTotal, memFree, memAvailable)

/-- corelib.calc_mem_percent (lines 338-347):
`(MemTotal - MemAvailable) * 100.0 / MemTotal`, built on get_mem_info.
Raises `ZeroDivisionError` when MemTotal is 0. -/
def calc_mem_percent (memTotal memFree memAvailable : Int) : Except PyErr ℚ :=
  let m := get_mem_info memTotal memFree memAvailable
  if m.1 = 0 then .error .zeroDivision
  else .ok ((((m.1 - m.2.2) * 100 : Int) : ℚ) / ((m.1 : Int) : ℚ))

/-- One device line of `/proc/net/dev` (the lines below the two headers,
i.e. the lines containing a colon): the interface name before the colon and
the numeric columns after it.  Column 0 is receive bytes, column 8 is
transmit bytes. -/
structure NetDevLine where
  name : String
  cols : List Int
deriving DecidableEq, Repr

/-- Scan of a character list for the two-letter substring "lo". -/
def hasLoSub : List Char → Bool
  | 'l' :: 'o' :: _ => true
  | _ :: t => hasLoSub t
  | [] => false

/-- Whether `"lo"` occurs as a substring, i.e. whether Python's
`line.count("lo")` is nonzero.  On a device line only the interface name can
contain the letters "lo" (the rest of the line is digits and separators), so
the check is taken on the name. -/
def containsLo (s : String) : Bool := hasLoSub s.data

/-- The loop body of corelib.get_net_dev_data: a line whose text contains
"lo" is skipped; otherwise its receive-byte and transmit-byte columns are
added to the accumulators. -/
def netDevStep (acc : Int × Int) (l : NetDevLine) : Int × Int :=
  if containsLo l.name then acc
  else (acc.1 + l.cols.getD 0 0, acc.2 + l.cols.getD 8 0)

/-- corelib.get_net_dev_data (lines 350-375) over the parsed device table:
sums receive bytes and transmit bytes of every line that contains a colon
and does not contain the substring "lo". -/
def get_net_dev_data (table : List NetDevLine) : Int × Int :=
  table.foldl netDevStep (0, 0)

/-- Written from the spec's words, for comparison with get_net_dev_data:
"`systemNetCounters() -> (recvBytes, sendBytes)` (excludes the loopback
device by convention)" — the sum over every device except exactly the one
named "lo". -/
def specSystemNetCounters (table : List NetDevLine) : Int × Int :=
  table.foldl
    (fun acc l => if l.name = "lo" then acc
      else (acc.1 + l.cols.getD 0 0, acc.2 + l.cols.getD 8 0)) (0, 0)

/-- Plain recursive sum of receive/transmit bytes of every line of a table,
used to state what get_net_dev_data computes after its filtering. -/
def sumNetDev : List NetDevLine → Int × Int
  | [] => (0, 0)
  | l :: t => ((sumNetDev t).1 + l.cols.getD 0 0, (sumNetDev t).2 + l.cols.getD 8 0)

/-- Outcome of one corelib net sampling call: the `(download, upload)` pair
or the escaping exception, the state after, and whether `sleep` ran. -/
structure NetCallResult where
  ret : Except PyErr (ℚ × ℚ)
  state : CoreState
  slept : Bool
deriving DecidableEq, Repr

/-- Lines 388-394 of corelib.calc_net_speed: given the fresh
`get_net_dev_data()` reading `cur = (receive, send)` and the fresh `time()`
reading `t`, either raise `ZeroDivisionError` (identical timestamps) or
return `((cur_recv - prev_recv) / 1024.0 / (t - prev_time), likewise for
send)` and store `cur`/`t` as the new previous sample. -/
def calcNetAfter (s : CoreState) (cur : Int × Int) (t : ℚ) (slept : Bool) : NetCallResult :=
  if t - s.prev_net_time = 0 then
    ⟨.error .zeroDivision, s, slept⟩
  else
    ⟨.ok ((((cur.1 - s.prev_net_receive_byte : Int) : ℚ)) / 1024 / (t - s.prev_net_time),
          (((cur.2 - s.prev_net_send_byte : Int) : ℚ)) / 1024 / (t - s.prev_net_time)),
     { s with prev_net_receive_byte := cur.1, prev_net_send_byte := cur.2,
              prev_net_time := t }, slept⟩

/-- corelib.calc_net_speed (lines 378-394). `r1`/`t1` are the first
`get_net_dev_data()` / `time()` readings the call performs, `r2`/`t2` the
second; the second pair is only read when the warm-up branch runs
(`prev_net_receive_byte == 0`), in which case `r1`/`t1` become the baseline,
the call sleeps, and `r2`/`t2` are the comparison sample. -/
def calc_net_speed (s : CoreState) (r1 : Int × Int) (t1 : ℚ) (r2 : Int × Int) (t2 : ℚ) :
    NetCallResult :=
  if s.prev_net_receive_byte = 0 then
    calcNetAfter
      { s with prev_net_receive_byte := r1.1, prev_net_send_byte := r1.2,
               prev_net_time := t1 } r2 t2 true
  else
    calcNetAfter s r1 t1 false

/-- Python-dict lookup on an association list keyed by pid
(`d[str(pid)]` / `d.get(str(pid))`). -/
def dictGet {α : Type} : List (Int × α) → Int → Option α
  | [], _ => none
  | (k, v) :: t, pid => if k = pid then some v else dictGet t pid

/-- Python-dict assignment on an association list keyed by pid
(`d[str(pid)] = v`): replaces the entry in place or appends a new one. -/
def dictSet {α : Type} : List (Int × α) → Int → α → List (Int × α)
  | [], pid, v => [(pid, v)]
  | (k, w) :: t, pid, v => if k = pid then (pid, v) :: t else (k, w) :: dictSet t pid v

/-- Python-set add on the watch list (`watch_pid.add(int(pid))`). -/
def setAdd (s : List Int) (pid : Int) : List Int := if pid ∈ s then s else s ++ [pid]

/-- process_monitor.py per-process record: a copy of `process_info_dict`
(lines 52-55), holding the shared timestamp and the previous CPU and IO
samples of one watched process. -/
structure ProcessInfo where
  pre_time : ℚ
  prev_cpu_time : Option Int
  prev_io : Option (Int × Int)
deriving DecidableEq, Repr

/-- The fresh per-process record deep-copied on first watch
(`pre_time = 0`, `prev_cpu_time = None`, `prev_io = None`). -/
def process_info_dict : ProcessInfo := ⟨0, none, none⟩

/-- The per-pid record process_monitor.network_activity_callback stores in
`libnethogs_data` (modelled with its numeric payload; the name, device,
action and timestamp strings it also stores carry no load here). -/
structure ProcessNetData where
  pid : Int
  sent_bytes : Int
  recv_bytes : Int
deriving DecidableEq, Repr

/-- Module state of process_monitor.py: the `all_process_info_dict` globals
(lines 41-49).  The watch set and the two pid-keyed dicts are association
lists; the running nethogs thread object is abstracted to the Bool
`libnethogs_thread` (None vs. a live thread). -/
structure AllProcessInfo where
  watch_pid : List Int
  process_info : List (Int × ProcessInfo)
  prev_cpu_total_time : Int
  libnethogs_thread_install : Bool
  libnethogs_thread : Bool
  libnethogs_data : List (Int × ProcessNetData)
deriving DecidableEq, Repr

/-- The state process_monitor.py has right after module load. -/
def initAllProcessInfo : AllProcessInfo := ⟨[], [], 0, false, false, []⟩

/-- The watch-section of calc_process_cpu_percent / calc_process_cpu_io
(lines 352-354 / 573-575): a pid not yet in the watch set is added and given
a fresh copy of process_info_dict. -/
def ensureWatched (s : AllProcessInfo) (pid : Int) : AllProcessInfo :=
  if pid ∈ s.watch_pid then s
  else { s with watch_pid := setAdd s.watch_pid pid,
                process_info := dictSet s.process_info pid process_info_dict }

/-- Outcome of one per-process CPU sampling call. -/
structure ProcCpuResult where
  ret : Except PyErr ℚ
  state : AllProcessInfo
  slept : Bool
deriving DecidableEq, Repr

/-- Lines 361-369 of process_monitor.calc_process_cpu_percent, after the
warm-up section: read the current total CPU time `t` and the current process
CPU time `p` (an `Except`, since the pid's `/proc` files may be gone), then
compute `(p - prev_cpu_time) * 100.0 / (t - prev_cpu_total_time)` and store
both current values as the previous samples.  Any exception leaves the state
as it was at this point. -/
def procCpuAfter (s : AllProcessInfo) (pid : Int) (t : Int) (p : Except PyErr Int)
    (slept : Bool) : ProcCpuResult :=
  match p with
  | .error e => ⟨.error e, s, slept⟩
  | .ok cp =>
    match dictGet s.process_info pid with
    | none => ⟨.error .keyError, s, slept⟩
    | some entry =>
      match entry.prev_cpu_time with
      | none => ⟨.error .typeError, s, slept⟩
      | some pv =>
        if t - s.prev_cpu_total_time = 0 then ⟨.error .zeroDivision, s, slept⟩
        else
          ⟨.ok ((((cp - pv) * 100 : Int) : ℚ) / (((t - s.prev_cpu_total_time) : Int) : ℚ)),
           { s with
               process_info := dictSet s.process_info pid { entry with prev_cpu_time := some cp },
               prev_cpu_total_time := t }, slept⟩

/-- process_monitor.calc_process_cpu_percent (lines 348-369).  `t1`/`p1` are
the first `get_total_cpu_time()[0]` / `get_process_cpu_time(pid)` readings
the call performs, `t2`/`p2` the second pair; the second pair is only read
when the warm-up branch runs (`prev_cpu_time is None`), in which case the
shared total-time baseline is set to `t1`, the pid's baseline to `p1`, the
call sleeps, and `t2`/`p2` are the comparison samples. -/
def calc_process_cpu_percent (s0 : AllProcessInfo) (pid : Int) (t1 : Int)
    (p1 : Except PyErr Int) (t2 : Int) (p2 : Except PyErr Int) : ProcCpuResult :=
  let s1 := ensureWatched s0 pid
  match dictGet s1.process_info pid with
  | none => ⟨.error .keyError, s1, false⟩
  | some entry =>
    match entry.prev_cpu_time with
    | none =>
      let s2 := { s1 with prev_cpu_total_time := t1 }
      match p1 with
      | .error e => ⟨.error e, s2, false⟩
      | .ok pv =>
        procCpuAfter
          { s2 with
              process_info := dictSet s2.process_info pid { entry with prev_cpu_time := some pv } }
          pid t2 p2 true
    | some _ => procCpuAfter s1 pid t1 p1 false

/-- Python 2 `round(x, 2)`: round to two decimal places, halves away from
zero. -/
def round2 (x : ℚ) : ℚ :=
  if 0 ≤ x then ((⌊x * 100 + 1 / 2⌋ : Int) : ℚ) / 100
  else -(((⌊-x * 100 + 1 / 2⌋ : Int) : ℚ) / 100)

/-- Outcome of one per-process disk-IO sampling call. -/
structure ProcIoResult where
  ret : Except PyErr (ℚ × ℚ)
  state : AllProcessInfo
  slept : Bool
deriving DecidableEq, Repr

/-- Lines 583-595 of process_monitor.calc_process_cpu_io, after the warm-up
section: read the current `time()` value `t` and the current
`get_process_io(pid)` pair `r = (rchar, wchar)`, compute
`(delta) / 1000.**2 / (t - pre_time)` for read and write, store the current
values as the previous sample, and return the two rates rounded to two
decimals. -/
def procIoAfter (s : AllProcessInfo) (pid : Int) (t : ℚ) (r : Except PyErr (Int × Int))
    (slept : Bool) : ProcIoResult :=
  match r with
  | .error e => ⟨.error e, s, slept⟩
  | .ok cur =>
    match dictGet s.process_info pid with
    | none => ⟨.error .keyError, s, slept⟩
    | some entry =>
      match entry.prev_io with
      | none => ⟨.error .typeError, s, slept⟩
      | some prev =>
        if t - entry.pre_time = 0 then ⟨.error .zeroDivision, s, slept⟩
        else
          ⟨.ok (round2 ((((cur.1 - prev.1) : Int) : ℚ) / (1000 * 1000) / (t - entry.pre_time)),
                round2 ((((cur.2 - prev.2) : Int) : ℚ) / (1000 * 1000) / (t - entry.pre_time))),
           { s with
               process_info :=
                 dictSet s.process_info pid
                   { entry with prev_io := some cur, pre_time := t } }, slept⟩

/-- process_monitor.calc_process_cpu_io (lines 569-595).  `r1`/`t1` are the
first `get_process_io(pid)` / `time()` readings the call performs, `r2`/`t2`
the second pair; the second pair is only read when the warm-up branch runs
(`prev_io is None`), in which case `r1`/`t1` become the pid's baseline, the
call sleeps, and `r2`/`t2` are the comparison samples. -/
def calc_process_cpu_io (s0 : AllProcessInfo) (pid : Int) (r1 : Except PyErr (Int × Int))
    (t1 : ℚ) (r2 : Except PyErr (Int × Int)) (t2 : ℚ) : ProcIoResult :=
  let s1 := ensureWatched s0 pid
  match dictGet s1.process_info pid with
  | none => ⟨.error .keyError, s1, false⟩
  | some entry =>
    match entry.prev_io with
    | none =>
      match r1 with
      | .error e => ⟨.error e, s1, false⟩
      | .ok prev =>
        procIoAfter
          { s1 with
              process_info :=
                dictSet s1.process_info pid
                  { entry with prev_io := some prev, pre_time := t1 } }
          pid t2 r2 true
    | some _ => procIoAfter s1 pid t1 r1 false

/-- process_monitor.is_libnethogs_install (lines 651-654): whether the file
`/usr/local/lib/libnethogs.so` exists; the filesystem fact is the
parameter. -/
def is_libnethogs_install (libExists : Bool) : Bool := libExists

/-- process_monitor.network_activity_callback (lines 763-781): when the
event's pid is in the watch set, the pid's record in `libnethogs_data` is
overwritten with the fresh data — for `SET` and `REMOVE` events alike, an
entry is stored, never deleted. -/
def network_activity_callback (s : AllProcessInfo) (d : ProcessNetData) : AllProcessInfo :=
  if d.pid ∈ s.watch_pid then
    { s with libnethogs_data := dictSet s.libnethogs_data d.pid d }
  else s

/-- Outcome of one get_process_net_info call: the looked-up record (`none`
for the `{}` default) or the escaping exception, and the state after. -/
structure NetInfoResult where
  ret : Except PyErr (Option ProcessNetData)
  state : AllProcessInfo
deriving DecidableEq, Repr

/-- process_monitor.get_process_net_info (lines 804-818).  `libExists` is
whether the libnethogs shared library is present on disk.  When the install
flag is unset the call probes is_libnethogs_install; on a failed probe it
prints an error and runs `exit(-1)`, modelled as `SystemExit` escaping.
Otherwise it adds the pid to the watch set, starts the nethogs thread if none
runs (init_nethogs_thread, abstracted to setting the thread flag), and
returns `libnethogs_data.get(str(pid), {})`. -/
def get_process_net_info (s0 : AllProcessInfo) (pid : Int) (libExists : Bool) : NetInfoResult :=
  let s1 :=
    if s0.libnethogs_thread_install then s0
    else { s0 with libnethogs_thread_install := is_libnethogs_install libExists }
  if s1.libnethogs_thread_install then
    let s2 := { s1 with watch_pid := setAdd s1.watch_pid pid }
    let s3 := if s2.libnethogs_thread then s2 else { s2 with libnethogs_thread := true }
    ⟨.ok (dictGet s3.libnethogs_data pid), s3⟩
  else
    ⟨.error (.systemExit (-1)), s1⟩

/-- A concrete `/proc/net/dev` table: the loopback device, a wireless
interface named "wlo1" (a standard systemd predictable name), and "eth0". -/
def c6table : List NetDevLine :=
  [⟨"lo", [2776770, 11307, 0, 0, 0, 0, 0, 0, 2776770, 11307, 0, 0, 0, 0, 0, 0]⟩,
   ⟨"wlo1", [500, 2, 0, 0, 0, 0, 0, 0, 700, 4, 0, 0, 0, 0, 0, 0]⟩,
   ⟨"eth0", [40, 1, 0, 0, 0, 0, 0, 0, 60, 1, 0, 0, 0, 0, 0, 0]⟩]

/-!
Helper lemmas: branch reductions of the sampling calls and frame lemmas for
the pid-keyed stores.
-/

theorem calcCpuAfter_slept (s : CoreState) (cur : Int × Int) (b : Bool) :
    (calcCpuAfter s cur b).slept = b := by
  unfold calcCpuAfter; split <;> rfl

theorem calcNetAfter_slept (s : CoreState) (cur : Int × Int) (t : ℚ) (b : Bool) :
    (calcNetAfter s cur t b).slept = b := by
  unfold calcNetAfter; split <;> rfl

theorem calc_cpu_percent_of_warmed (s : CoreState) (r1 r2 : Int × Int)
    (hw : s.prev_cpu_work_time ≠ 0) :
    calc_cpu_percent s r1 r2 = calcCpuAfter s r1 false := by
  simp [calc_cpu_percent, hw]

theorem calcCpuAfter_of_ne (s : CoreState) (cur : Int × Int) (b : Bool)
    (h : cur.1 ≠ s.prev_cpu_total_time) :
    calcCpuAfter s cur b =
      ⟨.ok ((((cur.2 - s.prev_cpu_work_time) * 100 : Int) : ℚ) /
            (((cur.1 - s.prev_cpu_total_time) : Int) : ℚ)),
       { s with prev_cpu_total_time := cur.1, prev_cpu_work_time := cur.2 }, b⟩ := by
  simp [calcCpuAfter, sub_eq_zero, h]

theorem calc_net_speed_of_warmed (s : CoreState) (r1 r2 : Int × Int) (t1 t2 : ℚ)
    (hw : s.prev_net_receive_byte ≠ 0) :
    calc_net_speed s r1 t1 r2 t2 = calcNetAfter s r1 t1 false := by
  simp [calc_net_speed, hw]

theorem calcNetAfter_of_ne (s : CoreState) (cur : Int × Int) (t : ℚ) (b : Bool)
    (h : t ≠ s.prev_net_time) :
    calcNetAfter s cur t b =
      ⟨.ok ((((cur.1 - s.prev_net_receive_byte : Int) : ℚ)) / 1024 / (t - s.prev_net_time),
            (((cur.2 - s.prev_net_send_byte : Int) : ℚ)) / 1024 / (t - s.prev_net_time)),
       { s with prev_net_receive_byte := cur.1, prev_net_send_byte := cur.2,
                prev_net_time := t }, b⟩ := by
  simp [calcNetAfter, sub_eq_zero, h]

theorem ensureWatched_of_mem (s : AllProcessInfo) (pid : Int) (h : pid ∈ s.watch_pid) :
    ensureWatched s pid = s := by
  simp [ensureWatched, h]

theorem dictGet_dictSet_ne {α : Type} (d : List (Int × α)) (k p : Int) (v : α)
    (h : p ≠ k) : dictGet (dictSet d k v) p = dictGet d p := by
  induction d with
  | nil => simp [dictSet, dictGet, Ne.symm h]
  | cons hd tl ih =>
    obtain ⟨a, w⟩ := hd
    by_cases hak : a = k
    · subst hak
      simp [dictSet, dictGet, Ne.symm h]
    · simp [dictSet, dictGet, hak, ih]

theorem ensureWatched_frame (s : AllProcessInfo) (pid q : Int) (h : q ≠ pid) :
    dictGet (ensureWatched s pid).process_info q = dictGet s.process_info q := by
  unfold ensureWatched
  split
  · rfl
  · simp [dictGet_dictSet_ne _ _ _ _ h]

theorem procCpuAfter_frame (s : AllProcessInfo) (pid t : Int) (p : Except PyErr Int)
    (b : Bool) (q : Int) (h : q ≠ pid) :
    dictGet (procCpuAfter s pid t p b).state.process_info q = dictGet s.process_info q := by
  unfold procCpuAfter
  rcases p with e | cp
  · rfl
  · rcases hd : dictGet s.process_info pid with _ | entry
    · simp [hd]
    · rcases hp : entry.prev_cpu_time with _ | pv
      · simp [hd, hp]
      · simp only [hd, hp]
        split
        · rfl
        · simp [dictGet_dictSet_ne _ _ _ _ h]

theorem calc_process_cpu_percent_frame (s : AllProcessInfo) (q t1 t2 : Int)
    (p1 p2 : Except PyErr Int) (p : Int) (h : p ≠ q) :
    dictGet (calc_process_cpu_percent s q t1 p1 t2 p2).state.process_info p =
      dictGet s.process_info p := by
  unfold calc_process_cpu_percent
  rcases hd : dictGet (ensureWatched s q).process_info q with _ | entry
  · simp [hd, ensureWatched_frame s q p h]
  · rcases hp : entry.prev_cpu_time with _ | pv
    · rcases p1 with e1 | c1
      · simp [hd, hp, ensureWatched_frame s q p h]
      · simp only [hd, hp]
        rw [procCpuAfter_frame _ _ _ _ _ _ h]
        simp [dictGet_dictSet_ne _ _ _ _ h, ensureWatched_frame s q p h]
    · simp only [hd, hp]
      rw [procCpuAfter_frame _ _ _ _ _ _ h]
      exact ensureWatched_frame s q p h

theorem get_net_dev_data_go (table : List NetDevLine) (a b : Int) :
    table.foldl netDevStep (a, b) =
      (a + (sumNetDev (table.filter (fun l => ! containsLo l.name))).1,
       b + (sumNetDev (table.filter (fun l => ! containsLo l.name))).2) := by
  induction table generalizing a b with
  | nil => simp [sumNetDev]
  | cons l t ih =>
    by_cases h : containsLo l.name
    · simp [netDevStep, h, ih]
    · simp only [List.foldl_cons, netDevStep, h, if_false, Bool.false_eq_true,
        List.filter_cons, Bool.not_false, if_true]
      rw [ih]
      simp [sumNetDev, h]
      constructor <;> ring

/-!
Claim theorems.
-/

/-- C1, counterexample: the claim says a CPU-percent call with
`currTotal == prevTotal` "reports not yet measurable and never divides by
zero (no exception escapes)".  It is false: at these concrete warmed-up
states, both calc_cpu_percent and calc_process_cpu_percent raise
`ZeroDivisionError`, which escapes to the caller. -/
theorem c1_counterexample :
    (calc_cpu_percent ⟨30, 100, 0, 0, 0⟩ (100, 42) (0, 0)).ret = .error .zeroDivision ∧
    (calc_process_cpu_percent ⟨[7], [(7, ⟨0, some 30, none⟩)], 100, false, false, []⟩
        7 100 (.ok 42) 0 (.ok 0)).ret = .error .zeroDivision := by
  constructor
  · norm_num [calc_cpu_percent, calcCpuAfter]
  · norm_num [calc_process_cpu_percent, ensureWatched, dictGet, procCpuAfter]

/-- C1, amended: in every warmed-up CPU-percent call (system scope or
process scope) in which the freshly read total-CPU-time counter equals the
stored previous one, the unguarded division raises `ZeroDivisionError`,
which escapes to the caller; the stored state is left as it was, and no
"not yet measurable" result is produced. -/
theorem c1_zero_total_delta_raises (s : CoreState) (r1 r2 : Int × Int)
    (a : AllProcessInfo) (pid t1 t2 c : Int) (p2 : Except PyErr Int)
    (e : ProcessInfo) (v : Int)
    (hw : s.prev_cpu_work_time ≠ 0) (he : r1.1 = s.prev_cpu_total_time)
    (hp : pid ∈ a.watch_pid) (hent : dictGet a.process_info pid = some e)
    (hprev : e.prev_cpu_time = some v) (ht : t1 = a.prev_cpu_total_time) :
    (calc_cpu_percent s r1 r2).ret = .error .zeroDivision ∧
    (calc_cpu_percent s r1 r2).state = s ∧
    (calc_process_cpu_percent a pid t1 (.ok c) t2 p2).ret = .error .zeroDivision ∧
    (calc_process_cpu_percent a pid t1 (.ok c) t2 p2).state = a := by
  have h1 : calc_cpu_percent s r1 r2 = calcCpuAfter s r1 false :=
    calc_cpu_percent_of_warmed s r1 r2 hw
  have h2 : calcCpuAfter s r1 false = ⟨.error .zeroDivision, s, false⟩ := by
    simp [calcCpuAfter, he]
  have h3 : calc_process_cpu_percent a pid t1 (.ok c) t2 p2 =
      ⟨.error .zeroDivision, a, false⟩ := by
    simp [calc_process_cpu_percent, ensureWatched_of_mem a pid hp, hent, hprev,
      procCpuAfter, ht]
  exact ⟨by rw [h1, h2], by rw [h1, h2], by rw [h3], by rw [h3]⟩

/-- C1, witness: the amended theorem at the concrete states of the
counterexample. -/
theorem c1_zero_total_delta_raises_witness :
    ((30 : Int) ≠ 0 ∧ (100 : Int) = 100 ∧ (7 : Int) ∈ [(7 : Int)] ∧
      dictGet [((7 : Int), (⟨0, some 30, none⟩ : ProcessInfo))] 7 = some ⟨0, some 30, none⟩) ∧
    (calc_cpu_percent ⟨30, 100, 0, 0, 0⟩ (100, 42) (17, 5)).ret = .error .zeroDivision ∧
    (calc_process_cpu_percent ⟨[7], [(7, ⟨0, some 30, none⟩)], 100, false, false, []⟩
        7 100 (.ok 42) 3 (.ok 9)).ret = .error .zeroDivision := by
  have h := c1_zero_total_delta_raises ⟨30, 100, 0, 0, 0⟩ (100, 42) (17, 5)
    ⟨[7], [(7, ⟨0, some 30, none⟩)], 100, false, false, []⟩ 7 100 3 42 (.ok 9)
    ⟨0, some 30, none⟩ 30 (by norm_num) rfl (by decide) rfl rfl rfl
  exact ⟨⟨by norm_num, rfl, by decide, rfl⟩, h.1, h.2.2.1⟩

/-- C2, counterexample: the claim says that when the fresh counter is below
the stored previous one the call reports "not yet measurable" and never
returns a negative rate.  It is false: at these concrete warmed-up states,
calc_cpu_percent returns -100 and calc_net_speed returns a download rate of
-1/4 KB/s. -/
theorem c2_counterexample :
    (calc_cpu_percent ⟨50, 100, 0, 0, 0⟩ (110, 40) (0, 0)).ret = .ok (-100) ∧
    (calc_net_speed ⟨0, 0, 500, 300, 10⟩ (244, 300) 11 (0, 0) 0).ret = .ok (-1/4, 0) := by
  constructor
  · norm_num [calc_cpu_percent, calcCpuAfter]
  · norm_num [calc_net_speed, calcNetAfter]

/-- C2, amended: when a warmed-up call sees a decreased counter (with a
positive total-time / wall-time delta), it does store the current sample as
the new previous one — so the next call behaves as if freshly re-armed —
but the call itself returns the computed negative rate instead of a
"not yet measurable" report; no counter-reset detection exists. -/
theorem c2_counter_decrease_goes_negative (s : CoreState) (rc rn r2 : Int × Int)
    (t1 t2 : ℚ)
    (hw : s.prev_cpu_work_time ≠ 0) (hwk : rc.2 < s.prev_cpu_work_time)
    (htot : s.prev_cpu_total_time < rc.1)
    (hnw : s.prev_net_receive_byte ≠ 0) (hrb : rn.1 < s.prev_net_receive_byte)
    (hnt : s.prev_net_time < t1) :
    (∃ q, (calc_cpu_percent s rc r2).ret = .ok q ∧ q < 0) ∧
    (calc_cpu_percent s rc r2).state.prev_cpu_work_time = rc.2 ∧
    (calc_cpu_percent s rc r2).state.prev_cpu_total_time = rc.1 ∧
    (∃ d u, (calc_net_speed s rn t1 r2 t2).ret = .ok (d, u) ∧ d < 0) ∧
    (calc_net_speed s rn t1 r2 t2).state.prev_net_receive_byte = rn.1 ∧
    (calc_net_speed s rn t1 r2 t2).state.prev_net_time = t1 := by
  have hc := (calc_cpu_percent_of_warmed s rc r2 hw).trans
    (calcCpuAfter_of_ne s rc false (by omega))
  have hn := (calc_net_speed_of_warmed s rn r2 t1 t2 hnw).trans
    (calcNetAfter_of_ne s rn t1 false (ne_of_gt hnt))
  refine ⟨⟨_, by rw [hc], ?_⟩, by rw [hc], by rw [hc],
    ⟨_, _, by rw [hn], ?_⟩, by rw [hn], by rw [hn]⟩
  · apply div_neg_of_neg_of_pos
    · exact_mod_cast by omega
    · exact_mod_cast by omega
  · apply div_neg_of_neg_of_pos
    · apply div_neg_of_neg_of_pos
      · exact_mod_cast by omega
      · norm_num
    · exact sub_pos.mpr hnt

/-- C2, witness: the amended theorem at a concrete warmed-up state with
decreased CPU-work and receive-byte counters. -/
theorem c2_counter_decrease_goes_negative_witness :
    ((50 : Int) ≠ 0 ∧ (40 : Int) < 50 ∧ (100 : Int) < 110 ∧
      (500 : Int) ≠ 0 ∧ (244 : Int) < 500 ∧ (10 : ℚ) < 11) ∧
    (∃ q, (calc_cpu_percent ⟨50, 100, 500, 300, 10⟩ (110, 40) (0, 0)).ret = .ok q ∧ q < 0) ∧
    (∃ d u, (calc_net_speed ⟨50, 100, 500, 300, 10⟩ (244, 300) 11 (0, 0) 0).ret =
      .ok (d, u) ∧ d < 0) := by
  have h := c2_counter_decrease_goes_negative ⟨50, 100, 500, 300, 10⟩ (110, 40)
    (244, 300) (0, 0) 11 0
    (by norm_num) (by norm_num) (by norm_num) (by norm_num) (by norm_num) (by norm_num)
  exact ⟨⟨by norm_num, by norm_num, by norm_num, by norm_num, by norm_num, by norm_num⟩,
    h.1, h.2.2.2.1⟩

/-- C3, counterexample: the claim says a missing capture engine surfaces a
typed EngineNotInstalled error and "does not crash or terminate the
process".  It is false: at the freshly loaded module state with the library
absent, get_process_net_info runs `exit(-1)` — `SystemExit` terminates the
interpreter; no typed error object is ever returned to the caller. -/
theorem c3_counterexample :
    (get_process_net_info initAllProcessInfo 7 false).ret = .error (.systemExit (-1)) := by
  norm_num [get_process_net_info, initAllProcessInfo, is_libnethogs_install]

/-- C3, amended: when the install flag is unset and the libnethogs library
is absent, get_process_net_info prints an error and terminates the process
via `exit(-1)` (SystemExit escapes, the interpreter exits); it returns no
typed error — though it indeed never masks the failure with a zero/empty
result, since nothing is returned at all.  The state is unchanged. -/
theorem c3_engine_missing_exits (s : AllProcessInfo) (pid : Int)
    (h : s.libnethogs_thread_install = false) :
    (get_process_net_info s pid false).ret = .error (.systemExit (-1)) ∧
    (get_process_net_info s pid false).state = s := by
  obtain ⟨w, pi, pt, inst, thr, dat⟩ := s
  simp only at h
  subst h
  constructor <;> rfl

/-- C3, witness: the amended theorem at the freshly loaded module state. -/
theorem c3_engine_missing_exits_witness :
    initAllProcessInfo.libnethogs_thread_install = false ∧
    (get_process_net_info initAllProcessInfo 7 false).ret = .error (.systemExit (-1)) ∧
    (get_process_net_info initAllProcessInfo 7 false).state = initAllProcessInfo := by
  have h := c3_engine_missing_exits initAllProcessInfo 7 rfl
  exact ⟨rfl, h.1, h.2⟩

/-- C4, counterexample: the claim says that when a watched pid's raw-counter
lookup fails because the process exited, the engine removes the pid from the
watch set, purges its entry and traffic record, and subsequent
get_process_net_info calls return absent.  It is false: at this concrete
state, the failing calc_process_cpu_percent call leaves the whole state
untouched — pid 7 is still watched — and get_process_net_info afterwards
still returns the stale cached traffic record. -/
theorem c4_counterexample :
    (calc_process_cpu_percent
        ⟨[7], [(7, ⟨0, some 30, none⟩)], 100, true, true, [(7, ⟨7, 111, 222⟩)]⟩
        7 120 (.error .noSuchProcess) 0 (.error .noSuchProcess)).state =
      ⟨[7], [(7, ⟨0, some 30, none⟩)], 100, true, true, [(7, ⟨7, 111, 222⟩)]⟩ ∧
    (7 : Int) ∈ (calc_process_cpu_percent
        ⟨[7], [(7, ⟨0, some 30, none⟩)], 100, true, true, [(7, ⟨7, 111, 222⟩)]⟩
        7 120 (.error .noSuchProcess) 0 (.error .noSuchProcess)).state.watch_pid ∧
    (get_process_net_info
        (calc_process_cpu_percent
          ⟨[7], [(7, ⟨0, some 30, none⟩)], 100, true, true, [(7, ⟨7, 111, 222⟩)]⟩
          7 120 (.error .noSuchProcess) 0 (.error .noSuchProcess)).state 7 true).ret =
      .ok (some ⟨7, 111, 222⟩) := by
  refine ⟨?_, ?_, ?_⟩ <;>
    norm_num [calc_process_cpu_percent, ensureWatched, dictGet, procCpuAfter,
      get_process_net_info, setAdd]

/-- C4, amended: when a watched, warmed-up pid's process-counter read fails,
the typed exception escapes from calc_process_cpu_percent and no cleanup
happens: the state is exactly unchanged, the pid stays in the watch set, and
a subsequent get_process_net_info for it returns the stale cached traffic
record rather than absent. -/
theorem c4_no_cleanup_on_exit (s : AllProcessInfo) (pid t1 t2 : Int) (err : PyErr)
    (p2 : Except PyErr Int) (e : ProcessInfo) (v : Int) (r : ProcessNetData)
    (hp : pid ∈ s.watch_pid) (hent : dictGet s.process_info pid = some e)
    (hprev : e.prev_cpu_time = some v)
    (hr : dictGet s.libnethogs_data pid = some r)
    (hi : s.libnethogs_thread_install = true) :
    (calc_process_cpu_percent s pid t1 (.error err) t2 p2).ret = .error err ∧
    (calc_process_cpu_percent s pid t1 (.error err) t2 p2).state = s ∧
    pid ∈ (calc_process_cpu_percent s pid t1 (.error err) t2 p2).state.watch_pid ∧
    (get_process_net_info (calc_process_cpu_percent s pid t1 (.error err) t2 p2).state
        pid true).ret = .ok (some r) := by
  have h3 : calc_process_cpu_percent s pid t1 (.error err) t2 p2 =
      ⟨.error err, s, false⟩ := by
    simp [calc_process_cpu_percent, ensureWatched_of_mem s pid hp, hent, hprev, procCpuAfter]
  rw [h3]
  refine ⟨rfl, rfl, hp, ?_⟩
  by_cases hthr : s.libnethogs_thread <;>
    simp [get_process_net_info, hi, setAdd, hp, hr, hthr]

/-- C4, witness: the amended theorem at the concrete state of the
counterexample. -/
theorem c4_no_cleanup_on_exit_witness :
    ((7 : Int) ∈ [(7 : Int)] ∧
      dictGet [((7 : Int), (⟨0, some 30, none⟩ : ProcessInfo))] 7 = some ⟨0, some 30, none⟩ ∧
      dictGet [((7 : Int), (⟨7, 111, 222⟩ : ProcessNetData))] 7 = some ⟨7, 111, 222⟩) ∧
    (calc_process_cpu_percent
        ⟨[7], [(7, ⟨0, some 30, none⟩)], 100, true, true, [(7, ⟨7, 111, 222⟩)]⟩
        7 120 (.error .noSuchProcess) 0 (.ok 5)).state =
      ⟨[7], [(7, ⟨0, some 30, none⟩)], 100, true, true, [(7, ⟨7, 111, 222⟩)]⟩ ∧
    (get_process_net_info
        (calc_process_cpu_percent
          ⟨[7], [(7, ⟨0, some 30, none⟩)], 100, true, true, [(7, ⟨7, 111, 222⟩)]⟩
          7 120 (.error .noSuchProcess) 0 (.ok 5)).state 7 true).ret =
      .ok (some ⟨7, 111, 222⟩) := by
  have h := c4_no_cleanup_on_exit
    ⟨[7], [(7, ⟨0, some 30, none⟩)], 100, true, true, [(7, ⟨7, 111, 222⟩)]⟩
    7 120 0 .noSuchProcess (.ok 5) ⟨0, some 30, none⟩ 30 ⟨7, 111, 222⟩
    (by decide) rfl rfl rfl rfl
  exact ⟨⟨by decide, rfl, rfl⟩, h.2.1, h.2.2.2⟩

/-- C5, counterexample: the claim says a calc_process_cpu_percent call for
pid q leaves pid p's stored previous CPU sample — "including the
total-CPU-time baseline against which p's next percentage will be computed"
— unchanged.  It is false: with pids 1 and 2 both watched and warmed and the
shared stored baseline at 100, a call for pid 2 overwrites that baseline
with the freshly read 120, so pid 1's next percentage is computed against
pid 2's refreshed baseline. -/
theorem c5_counterexample :
    (calc_process_cpu_percent
        ⟨[1, 2], [(1, ⟨0, some 10, none⟩), (2, ⟨0, some 20, none⟩)], 100, false, false, []⟩
        2 120 (.ok 50) 0 (.ok 0)).state.prev_cpu_total_time = 120 ∧
    (calc_process_cpu_percent
        ⟨[1, 2], [(1, ⟨0, some 10, none⟩), (2, ⟨0, some 20, none⟩)], 100, false, false, []⟩
        2 120 (.ok 50) 0 (.ok 0)).state.prev_cpu_total_time ≠ 100 := by
  constructor
  · norm_num [calc_process_cpu_percent, ensureWatched, dictGet, dictSet, procCpuAfter]
  · norm_num [calc_process_cpu_percent, ensureWatched, dictGet, dictSet, procCpuAfter]

/-- C5, amended: a calc_process_cpu_percent call for pid q leaves every
other pid p's per-process entry (its prev_cpu_time, pre_time and prev_io)
unchanged, but the total-CPU-time baseline is a single shared module-level
value (`all_process_info_dict["prev_cpu_total_time"]`), not a per-process
one: a successful warmed-up call for q overwrites it with q's freshly read
total, so p's next percentage is computed against that refreshed shared
baseline rather than an independent per-pid one. -/
theorem c5_entry_frame_shared_baseline (s : AllProcessInfo) (p q t1 t2 : Int)
    (p1 p2 : Except PyErr Int) (e : ProcessInfo) (v c : Int)
    (hpq : p ≠ q)
    (hq : q ∈ s.watch_pid) (hent : dictGet s.process_info q = some e)
    (hprev : e.prev_cpu_time = some v) (hok : p1 = .ok c)
    (hd : t1 ≠ s.prev_cpu_total_time) :
    dictGet (calc_process_cpu_percent s q t1 p1 t2 p2).state.process_info p =
      dictGet s.process_info p ∧
    (calc_process_cpu_percent s q t1 p1 t2 p2).state.prev_cpu_total_time = t1 := by
  refine ⟨calc_process_cpu_percent_frame s q t1 t2 p1 p2 p hpq, ?_⟩
  subst hok
  simp [calc_process_cpu_percent, ensureWatched_of_mem s q hq, hent, hprev,
    procCpuAfter, sub_eq_zero, hd]

/-- C5, witness: the amended theorem at the concrete state of the
counterexample — pid 1's entry survives, the shared baseline becomes 120. -/
theorem c5_entry_frame_shared_baseline_witness :
    ((1 : Int) ≠ 2 ∧ (2 : Int) ∈ [(1 : Int), 2] ∧ (120 : Int) ≠ 100) ∧
    dictGet (calc_process_cpu_percent
        ⟨[1, 2], [(1, ⟨0, some 10, none⟩), (2, ⟨0, some 20, none⟩)], 100, false, false, []⟩
        2 120 (.ok 50) 0 (.ok 0)).state.process_info 1 = some ⟨0, some 10, none⟩ ∧
    (calc_process_cpu_percent
        ⟨[1, 2], [(1, ⟨0, some 10, none⟩), (2, ⟨0, some 20, none⟩)], 100, false, false, []⟩
        2 120 (.ok 50) 0 (.ok 0)).state.prev_cpu_total_time = 120 := by
  have h := c5_entry_frame_shared_baseline
    ⟨[1, 2], [(1, ⟨0, some 10, none⟩), (2, ⟨0, some 20, none⟩)], 100, false, false, []⟩
    1 2 120 0 (.ok 50) (.ok 0) ⟨0, some 20, none⟩ 20 50
    (by decide) (by decide) rfl rfl rfl (by decide)
  exact ⟨⟨by decide, by decide, by decide⟩, h.1.trans (by decide), h.2⟩

/-- C6, counterexample: the claim says get_net_dev_data excludes "exactly
the loopback device and no other device".  It is false: on a table holding
"lo", "wlo1" and "eth0", the code sums only "eth0" — the line filter
`line.count("lo")` also drops the wireless device "wlo1" — whereas the
spec's sum excluding exactly the loopback device gives (540, 760). -/
theorem c6_counterexample :
    get_net_dev_data c6table = (40, 60) ∧
    specSystemNetCounters c6table = (540, 760) ∧
    get_net_dev_data c6table ≠ specSystemNetCounters c6table := by
  refine ⟨?_, ?_, ?_⟩ <;> decide

/-- C6, amended: get_net_dev_data returns the sums of received and sent
bytes over exactly the device lines whose text does not contain the
substring "lo".  This excludes the loopback device, but also every other
device whose name contains "lo" (such as "wlo1"), while a name like "eth0"
is kept. -/
theorem c6_filter_lo_substring (table : List NetDevLine) :
    get_net_dev_data table = sumNetDev (table.filter (fun l => ! containsLo l.name)) ∧
    containsLo "lo" = true ∧ containsLo "wlo1" = true ∧ containsLo "eth0" = false := by
  refine ⟨?_, by decide, by decide, by decide⟩
  rw [get_net_dev_data, get_net_dev_data_go]
  simp

/-- C7: the unit divisors are preserved exactly — a warmed-up calc_net_speed
divides the byte deltas by 1024 and by the elapsed seconds, and a warmed-up
calc_process_cpu_io divides the byte deltas by 1000² and by the elapsed
seconds (then rounds to two decimals as the source does). -/
theorem c7_unit_divisors (s : CoreState) (rn r2 : Int × Int) (t1 t2 : ℚ)
    (a : AllProcessInfo) (pid : Int) (e : ProcessInfo) (prev cur : Int × Int)
    (u1 : ℚ) (rio : Except PyErr (Int × Int)) (u2 : ℚ)
    (hw : s.prev_net_receive_byte ≠ 0) (ht : t1 ≠ s.prev_net_time)
    (hp : pid ∈ a.watch_pid) (hent : dictGet a.process_info pid = some e)
    (hprev : e.prev_io = some prev) (hu : u1 ≠ e.pre_time) :
    (calc_net_speed s rn t1 r2 t2).ret =
      .ok ((((rn.1 - s.prev_net_receive_byte : Int) : ℚ)) / 1024 / (t1 - s.prev_net_time),
           (((rn.2 - s.prev_net_send_byte : Int) : ℚ)) / 1024 / (t1 - s.prev_net_time)) ∧
    (calc_process_cpu_io a pid (.ok cur) u1 rio u2).ret =
      .ok (round2 ((((cur.1 - prev.1) : Int) : ℚ) / (1000 * 1000) / (u1 - e.pre_time)),
           round2 ((((cur.2 - prev.2) : Int) : ℚ) / (1000 * 1000) / (u1 - e.pre_time))) := by
  constructor
  · rw [calc_net_speed_of_warmed s rn r2 t1 t2 hw, calcNetAfter_of_ne s rn t1 false ht]
  · simp [calc_process_cpu_io, ensureWatched_of_mem a pid hp, hent, hprev,
      procIoAfter, sub_eq_zero, hu]

/-- C7, witness: the spec's two scenarios — a receive delta of 1,048,576
bytes over 1 second gives exactly 1024.0 KB/s, and an rchar delta of
2,000,000 bytes over 2 seconds gives exactly 1.0 MB/s. -/
theorem c7_unit_divisors_witness :
    ((1048576 : Int) ≠ 0 ∧ (1 : ℚ) ≠ 0 ∧ (7 : Int) ∈ [(7 : Int)] ∧ (2 : ℚ) ≠ 0) ∧
    (calc_net_speed ⟨0, 0, 1048576, 0, 0⟩ (2097152, 0) 1 (0, 0) 0).ret = .ok (1024, 0) ∧
    (calc_process_cpu_io ⟨[7], [(7, ⟨0, none, some (0, 0)⟩)], 0, false, false, []⟩
        7 (.ok (2000000, 0)) 2 (.ok (0, 0)) 0).ret = .ok (1, 0) := by
  have h := c7_unit_divisors ⟨0, 0, 1048576, 0, 0⟩ (2097152, 0) (0, 0) 1 0
    ⟨[7], [(7, ⟨0, none, some (0, 0)⟩)], 0, false, false, []⟩ 7
    ⟨0, none, some (0, 0)⟩ (0, 0) (2000000, 0) 2 (.ok (0, 0)) 0
    (by norm_num) (by norm_num) (by decide) rfl rfl (by norm_num)
  refine ⟨⟨by norm_num, by norm_num, by decide, by norm_num⟩, h.1.trans ?_, h.2.trans ?_⟩
  · norm_num
  · norm_num [round2]

/-- C8: in every warmed-up system-CPU state (and with a nonzero total-time
delta, without which the division is undefined — see C1), calc_cpu_percent
returns `(currWork - prevWork) * 100 / (currTotal - prevTotal)`. -/
theorem c8_cpu_percent_formula (s : CoreState) (r1 r2 : Int × Int)
    (hw : s.prev_cpu_work_time ≠ 0) (hd : r1.1 ≠ s.prev_cpu_total_time) :
    (calc_cpu_percent s r1 r2).ret =
      .ok ((((r1.2 - s.prev_cpu_work_time) * 100 : Int) : ℚ) /
           (((r1.1 - s.prev_cpu_total_time) : Int) : ℚ)) := by
  rw [calc_cpu_percent_of_warmed s r1 r2 hw, calcCpuAfter_of_ne s r1 false hd]

/-- C8, witness: the spec's scenario — counters (total=100, work=30) then
(total=120, work=42) yield exactly 60.0. -/
theorem c8_cpu_percent_formula_witness :
    (30 : Int) ≠ 0 ∧ (120 : Int) ≠ 100 ∧
    (calc_cpu_percent ⟨30, 100, 0, 0, 0⟩ (120, 42) (0, 0)).ret = .ok 60 := by
  refine ⟨by norm_num, by norm_num,
    (c8_cpu_percent_formula ⟨30, 100, 0, 0, 0⟩ (120, 42) (0, 0)
      (by norm_num) (by norm_num)).trans ?_⟩
  norm_num

/-- C9: calc_mem_percent returns `(MemTotal - MemAvailable) * 100 /
MemTotal`, and the result does not depend on the MemFree ("free") reading at
all — only "available" is used. -/
theorem c9_mem_percent_available (memTotal memFree memFreeAlt memAvailable : Int)
    (h : memTotal ≠ 0) :
    calc_mem_percent memTotal memFree memAvailable =
      .ok ((((memTotal - memAvailable) * 100 : Int) : ℚ) / ((memTotal : Int) : ℚ)) ∧
    calc_mem_percent memTotal memFree memAvailable =
      calc_mem_percent memTotal memFreeAlt memAvailable := by
  constructor
  · simp [calc_mem_percent, get_mem_info, h]
  · rfl

/-- C9, witness: the spec's scenario — (total=1000, available=400) yields
exactly 60.0, for any MemFree reading. -/
theorem c9_mem_percent_available_witness :
    (1000 : Int) ≠ 0 ∧
    calc_mem_percent 1000 123 400 = .ok 60 ∧
    calc_mem_percent 1000 123 400 = calc_mem_percent 1000 999 400 := by
  have h := c9_mem_percent_available 1000 123 999 400 (by norm_num)
  exact ⟨by norm_num, h.1.trans (by norm_num), h.2⟩

/-- C10: the system-scope warm-up detection is a comparison of the stored
previous counter with 0, not a separate flag.  Whenever the stored previous
CPU work time is 0 (for calc_cpu_percent) or the stored previous
receive-byte count is 0 (for calc_net_speed) — the model has no other
initialization record, exactly as the code has none — the call re-runs the
blocking warm-up path: it re-takes the baseline from the fresh first reading
and sleeps (the continuation runs with slept = true); with a nonzero stored
value the warm-up never runs. -/
theorem c10_zero_sentinel_warmup (s : CoreState) (r1 r2 : Int × Int) (t1 t2 : ℚ) :
    (s.prev_cpu_work_time = 0 →
      calc_cpu_percent s r1 r2 =
        calcCpuAfter { s with prev_cpu_total_time := r1.1, prev_cpu_work_time := r1.2 }
          r2 true) ∧
    (s.prev_cpu_work_time ≠ 0 → (calc_cpu_percent s r1 r2).slept = false) ∧
    (s.prev_net_receive_byte = 0 →
      calc_net_speed s r1 t1 r2 t2 =
        calcNetAfter { s with prev_net_receive_byte := r1.1, prev_net_send_byte := r1.2,
                              prev_net_time := t1 } r2 t2 true) ∧
    (s.prev_net_receive_byte ≠ 0 → (calc_net_speed s r1 t1 r2 t2).slept = false) := by
  refine ⟨fun h => ?_, fun h => ?_, fun h => ?_, fun h => ?_⟩
  · simp [calc_cpu_percent, h]
  · rw [calc_cpu_percent_of_warmed s r1 r2 h, calcCpuAfter_slept]
  · simp [calc_net_speed, h]
  · rw [calc_net_speed_of_warmed s r1 r2 t1 t2 h, calcNetAfter_slept]

/-- C10, witness: at a state whose stored previous values are 0 — exactly
what a genuinely sampled zero counter leaves behind — both calls re-run the
warm-up: re-armed baseline from the first fresh reading, slept = true. -/
theorem c10_zero_sentinel_warmup_witness :
    initCoreState.prev_cpu_work_time = 0 ∧
    calc_cpu_percent initCoreState (100, 30) (120, 42) =
      calcCpuAfter ⟨30, 100, 0, 0, 0⟩ (120, 42) true ∧
    initCoreState.prev_net_receive_byte = 0 ∧
    calc_net_speed initCoreState (100, 30) 5 (120, 42) 6 =
      calcNetAfter ⟨0, 0, 100, 30, 5⟩ (120, 42) 6 true := by
  have h := c10_zero_sentinel_warmup initCoreState (100, 30) (120, 42) 5 6
  exact ⟨rfl, h.1 rfl, rfl, h.2.2.1 rfl⟩
